import Mathlib

/-!
Shallow embedding of rainsoon_mcp.py.

The program chains three best-effort network calls: public-IP discovery
over a fixed list of three endpoints, IP geolocation, and a weather
lookup, with a single fallback path when a caller-supplied IP fails
geolocation.  External collaborators are modelled as oracle functions in
an environment record; exceptions become Except values carrying the
exception message string.  Coordinates are carried opaquely as integers
(the pipeline never computes with them).  The pipeline additionally
records a trace of the external calls it performs, so that claims of the
form "no further call occurs" are statable; the untraced result is the
first component.
-/

/-- Response of the geolocation provider (geocoder.ip) for one IP: an ok
status, an optional latitude/longitude pair (none models a null or empty
latlng), and an optional city name (none models a missing city; the empty
string is also falsy in the source and is handled by cityOrDefault). -/
structure GeoResp where
  ok : Bool
  latlng : Option (Int × Int)
  city : Option String

/-- Outcome of the single forecast HTTP request in fetch_precip_prob.
transport models a requests.RequestException, including the HTTPError
raised by raise_for_status on a non-2xx response.  json models a parsed
2xx body: the hourly precipitation_probability and time sequences, with
absent keys collapsed to [] exactly as dict.get with default [] does. -/
inductive WxResp where
  | transport (msg : String)
  | json (probs : List Int) (times : List String)

/-- Error raised by fetch_precip_prob: a propagated transport failure, or
the RuntimeError for a missing/empty probability sequence. -/
inductive WxError where
  | transport (msg : String)
  | missing
  deriving DecidableEq

/-- Value returned by fetch_precip_prob on success: the first hourly
probability as an integer and the first at most 3 timestamps. -/
structure WeatherData where
  prob : Int
  times : List String
  deriving DecidableEq

/-- Environment of one check_for_rain invocation: per-URL responses of
the what-is-my-IP endpoints (none models a requests.RequestException),
the geolocation provider, and the forecast response. -/
structure Env where
  resp : String → Option String
  geo : String → GeoResp
  weather : WxResp

/-- Message of the RuntimeError raised when every discovery endpoint
fails or answers blank. -/
def discoveryErrMsg : String := "Could not determine public IP from fallback services."

/-- Embeds the Python str.strip() method: drop whitespace characters
from both ends of the string.  Written with List.dropWhile so that it is
computable by kernel reduction. -/
def pyStrip (s : String) : String :=
  ⟨((s.data.dropWhile Char.isWhitespace).reverse.dropWhile Char.isWhitespace).reverse⟩

/-- The fixed ordered endpoint list of the source. -/
def endpoints : List String :=
  ["https://api.ipify.org", "https://ipinfo.io/ip", "https://icanhazip.com"]

/-- Loop body of get_public_ip over a list of endpoint URLs, also
returning the list of URLs actually queried: a request exception (none)
is swallowed, a blank trimmed body falls through to the next URL, and the
first non-blank trimmed body is returned. -/
def tryEndpointsT (resp : String → Option String) : List String → Except String String × List String
  | [] => (Except.error discoveryErrMsg, [])
  | url :: rest =>
    match resp url with
    | some body =>
      if pyStrip body = "" then
        let r := tryEndpointsT resp rest
        (r.1, url :: r.2)
      else
        (Except.ok (pyStrip body), [url])
    | none =>
      let r := tryEndpointsT resp rest
      (r.1, url :: r.2)

/-- Embeds the source function of the same name: iterate the fixed
endpoint list, return the first trimmed non-empty body, raise if all
fail. -/
def get_public_ip (resp : String → Option String) : Except String String :=
  (tryEndpointsT resp endpoints).1

/-- Decides that one endpoint does not yield an IP: either the request
raised, or the trimmed body is empty. -/
def endpointMiss (resp : String → Option String) (url : String) : Bool :=
  match resp url with
  | none => true
  | some body => pyStrip body == ""

/-- Embeds the expression (g.city or "your area"): both a missing city
and an empty city string are falsy in the source. -/
def cityOrDefault (c : Option String) : String :=
  match c with
  | none => "your area"
  | some s => if s = "" then "your area" else s

/-- Embeds the nested geolocate function of check_for_rain: require an ok
status and a present latlng pair, otherwise raise a RuntimeError naming
the target IP; the city falls back to a placeholder. -/
def geolocate (geo : String → GeoResp) (target_ip : String) : Except String (Int × Int × String) :=
  let g := geo target_ip
  match g.latlng with
  | some p =>
    if g.ok then
      Except.ok (p.1, p.2, cityOrDefault g.city)
    else
      Except.error ("Could not geolocate IP " ++ target_ip ++ ".")
  | none => Except.error ("Could not geolocate IP " ++ target_ip ++ ".")

/-- Embeds fetch_precip_prob given the forecast response: propagate a
transport failure, raise on an absent or empty probability sequence, and
otherwise return the first probability and the first at most 3
timestamps. -/
def fetch_precip_prob : WxResp → Except WxError WeatherData
  | WxResp.transport m => Except.error (WxError.transport m)
  | WxResp.json probs times =>
    match probs with
    | [] => Except.error WxError.missing
    | p :: _ => Except.ok ⟨p, times.take 3⟩

/-- One external call performed by the pipeline, for the trace. -/
inductive Event where
  | discover
  | geoCall (ip : String)
  | weatherCall
  deriving DecidableEq

/-- The terminal success record of check_for_rain; hour_sample is none
exactly when the hour_sample key is absent from the returned dict. -/
structure SuccessResult where
  ip : String
  location : String
  lat : Int
  lng : Int
  rain : Bool
  precipitation_chance : Int
  threshold : Int
  message : String
  hour_sample : Option (List String)
  deriving DecidableEq

/-- The terminal result of check_for_rain: a success record or an error
record with a single message string. -/
inductive RainCheckResult where
  | success (r : SuccessResult)
  | error (msg : String)
  deriving DecidableEq

/-- Step 3 of check_for_rain, the weather lookup and result shaping:
build the success dict, classify a transport failure, and pass any other
exception message through verbatim. -/
def weatherPhase (env : Env) (ip : String) (lat lng : Int) (city : String) (threshold : Int) : RainCheckResult :=
  match fetch_precip_prob env.weather with
  | Except.ok w =>
    RainCheckResult.success
      { ip := ip
        location := city
        lat := lat
        lng := lng
        rain := decide (w.prob > threshold)
        precipitation_chance := w.prob
        threshold := threshold
        message := (if w.prob > threshold then "Yes" else "No") ++ ", " ++ toString w.prob
          ++ "% chance of rain soon in " ++ city ++ "."
        hour_sample := if w.times.isEmpty then none else some w.times }
  | Except.error (WxError.transport m) => RainCheckResult.error ("Failed to fetch weather data: " ++ m)
  | Except.error WxError.missing => RainCheckResult.error "Weather data missing precipitation probabilities."

/-- Step 2 of check_for_rain, with the trace of calls made from this
point on: geolocate the current ip; on failure either stop (auto-detect
already used) or run the single fallback of one discovery and one
geolocation of the discovered IP, combining both messages when either
fallback step fails. -/
def geoPhase (env : Env) (ip : String) (tried_autodetect : Bool) (threshold : Int) : RainCheckResult × List Event :=
  match geolocate env.geo ip with
  | Except.ok (lat, lng, city) =>
    (weatherPhase env ip lat lng city threshold, [Event.geoCall ip, Event.weatherCall])
  | Except.error first_err =>
    if tried_autodetect then
      (RainCheckResult.error first_err, [Event.geoCall ip])
    else
      match get_public_ip env.resp with
      | Except.error second_err =>
        (RainCheckResult.error (first_err ++ "; fallback to public IP failed: " ++ second_err),
          [Event.geoCall ip, Event.discover])
      | Except.ok auto_ip =>
        match geolocate env.geo auto_ip with
        | Except.error second_err =>
          (RainCheckResult.error (first_err ++ "; fallback to public IP failed: " ++ second_err),
            [Event.geoCall ip, Event.discover, Event.geoCall auto_ip])
        | Except.ok (lat, lng, city) =>
          (weatherPhase env auto_ip lat lng city threshold,
            [Event.geoCall ip, Event.discover, Event.geoCall auto_ip, Event.weatherCall])

/-- Embeds check_for_rain, returning the result together with the trace
of external calls.  The ip argument is Option String so that a null
argument is representable; (ip or "").strip() is the normalization of
the source. -/
def runCheck (env : Env) (ip : Option String) (threshold : Int) : RainCheckResult × List Event :=
  let ip0 := pyStrip (ip.getD "")
  if ip0 = "" then
    match get_public_ip env.resp with
    | Except.error e =>
      (RainCheckResult.error ("Could not determine public IP: " ++ e), [Event.discover])
    | Except.ok dip =>
      let r := geoPhase env dip true threshold
      (r.1, Event.discover :: r.2)
  else
    geoPhase env ip0 false threshold

/-- The result of check_for_rain as returned to the caller. -/
def check_for_rain (env : Env) (ip : Option String) (threshold : Int) : RainCheckResult :=
  (runCheck env ip threshold).1

/-- Test fixture: a geolocation provider that fails on every IP. -/
def geoFail : String → GeoResp := fun _ => ⟨false, none, none⟩

/-- Test fixture: a provider that resolves only 9.9.9.9, to Testville. -/
def geoTestville : String → GeoResp :=
  fun ip => if ip = "9.9.9.9" then ⟨true, some (1, 2), some "Testville"⟩ else ⟨false, none, none⟩

/-- Test fixture: a provider that resolves every IP but reports no city. -/
def geoNoCity : String → GeoResp := fun _ => ⟨true, some (3, 4), none⟩

/-- Test fixture: every discovery endpoint raises. -/
def respNone : String → Option String := fun _ => none

/-- Test fixture: every discovery endpoint answers 9.9.9.9. -/
def respNine : String → Option String := fun _ => some "9.9.9.9"

/-! Helper lemmas about the branches of the pipeline, shared by the
claim theorems below. -/

theorem runCheck_nonblank (env : Env) (s : String) (t : Int) (hs : ¬ pyStrip s = "") :
    runCheck env (some s) t = geoPhase env (pyStrip s) false t := by
  simp [runCheck, hs]

theorem runCheck_blank_err (env : Env) (ip : Option String) (t : Int) (e : String)
    (hblank : pyStrip (ip.getD "") = "") (hd : get_public_ip env.resp = Except.error e) :
    runCheck env ip t =
      (RainCheckResult.error ("Could not determine public IP: " ++ e), [Event.discover]) := by
  simp [runCheck, hblank, hd]

theorem runCheck_blank_ok (env : Env) (ip : Option String) (t : Int) (dip : String)
    (hblank : pyStrip (ip.getD "") = "") (hd : get_public_ip env.resp = Except.ok dip) :
    runCheck env ip t = ((geoPhase env dip true t).1, Event.discover :: (geoPhase env dip true t).2) := by
  simp [runCheck, hblank, hd]

theorem geoPhase_ok (env : Env) (ip : String) (b : Bool) (t : Int) (lat lng : Int) (city : String)
    (hg : geolocate env.geo ip = Except.ok (lat, lng, city)) :
    geoPhase env ip b t = (weatherPhase env ip lat lng city t, [Event.geoCall ip, Event.weatherCall]) := by
  simp [geoPhase, hg]

theorem geoPhase_err_tried (env : Env) (ip : String) (t : Int) (e : String)
    (hg : geolocate env.geo ip = Except.error e) :
    geoPhase env ip true t = (RainCheckResult.error e, [Event.geoCall ip]) := by
  simp [geoPhase, hg]

theorem geoPhase_fb_disc_err (env : Env) (ip : String) (t : Int) (e1 e2 : String)
    (hg : geolocate env.geo ip = Except.error e1)
    (hd : get_public_ip env.resp = Except.error e2) :
    geoPhase env ip false t =
      (RainCheckResult.error (e1 ++ "; fallback to public IP failed: " ++ e2),
        [Event.geoCall ip, Event.discover]) := by
  simp [geoPhase, hg, hd]

theorem geoPhase_fb_geo_err (env : Env) (ip : String) (t : Int) (e1 : String) (aip : String) (e2 : String)
    (hg : geolocate env.geo ip = Except.error e1)
    (hd : get_public_ip env.resp = Except.ok aip)
    (hg2 : geolocate env.geo aip = Except.error e2) :
    geoPhase env ip false t =
      (RainCheckResult.error (e1 ++ "; fallback to public IP failed: " ++ e2),
        [Event.geoCall ip, Event.discover, Event.geoCall aip]) := by
  simp [geoPhase, hg, hd, hg2]

theorem geoPhase_fb_ok (env : Env) (ip : String) (t : Int) (e1 : String) (aip : String)
    (lat lng : Int) (city : String)
    (hg : geolocate env.geo ip = Except.error e1)
    (hd : get_public_ip env.resp = Except.ok aip)
    (hg2 : geolocate env.geo aip = Except.ok (lat, lng, city)) :
    geoPhase env ip false t =
      (weatherPhase env aip lat lng city t,
        [Event.geoCall ip, Event.discover, Event.geoCall aip, Event.weatherCall]) := by
  simp [geoPhase, hg, hd, hg2]

theorem weatherPhase_success_fields (env : Env) (ip : String) (lat lng : Int) (city : String)
    (t : Int) (r : SuccessResult)
    (h : weatherPhase env ip lat lng city t = RainCheckResult.success r) :
    ∃ w, fetch_precip_prob env.weather = Except.ok w ∧
      r.ip = ip ∧ r.location = city ∧ r.lat = lat ∧ r.lng = lng ∧
      r.rain = decide (w.prob > t) ∧ r.precipitation_chance = w.prob ∧ r.threshold = t ∧
      r.hour_sample = (if w.times.isEmpty then none else some w.times) := by
  unfold weatherPhase at h
  split at h
  case _ w hw =>
    refine ⟨w, hw, ?_⟩
    cases h
    simp
  case _ m hw => cases h
  case _ hw => cases h

theorem geoPhase_success_origin (env : Env) (ip : String) (b : Bool) (t : Int) (r : SuccessResult)
    (h : (geoPhase env ip b t).1 = RainCheckResult.success r) :
    ∃ i la ln c, weatherPhase env i la ln c t = RainCheckResult.success r := by
  unfold geoPhase at h
  split at h
  case _ lat lng city hg => exact ⟨ip, lat, lng, city, h⟩
  case _ e1 hg =>
    split at h
    · cases h
    · split at h
      case _ e2 hd => cases h
      case _ aip hd =>
        split at h
        case _ e2 hg2 => cases h
        case _ lat lng city hg2 => exact ⟨aip, lat, lng, city, h⟩

theorem runCheck_success_origin (env : Env) (ip : Option String) (t : Int) (r : SuccessResult)
    (h : (runCheck env ip t).1 = RainCheckResult.success r) :
    ∃ i la ln c, weatherPhase env i la ln c t = RainCheckResult.success r := by
  simp only [runCheck] at h
  by_cases hb : pyStrip (ip.getD "") = ""
  · rw [if_pos hb] at h
    split at h
    case _ e hd => simp at h
    case _ dip hd => exact geoPhase_success_origin env dip true t r (by simpa using h)
  · rw [if_neg hb] at h
    exact geoPhase_success_origin env _ false t r h

/-- C4: when the ip argument is blank after trimming and IP discovery
fails with cause e, check_for_rain terminates immediately with the single
error record "Could not determine public IP: e", and the trace shows that
no geolocation call and no weather call occurred. -/
theorem check_for_rain_discovery_fail (env : Env) (ip : Option String) (t : Int) (e : String)
    (hblank : pyStrip (ip.getD "") = "") (hd : get_public_ip env.resp = Except.error e) :
    runCheck env ip t =
      (RainCheckResult.error ("Could not determine public IP: " ++ e), [Event.discover]) :=
  runCheck_blank_err env ip t e hblank hd

theorem check_for_rain_discovery_fail_witness :
    pyStrip ((none : Option String).getD "") = "" ∧
    get_public_ip respNone = Except.error discoveryErrMsg ∧
    runCheck ⟨respNone, geoFail, WxResp.json [] []⟩ none 20 =
      (RainCheckResult.error ("Could not determine public IP: " ++ discoveryErrMsg),
        [Event.discover]) :=
  ⟨rfl, rfl, check_for_rain_discovery_fail ⟨respNone, geoFail, WxResp.json [] []⟩ none 20
    discoveryErrMsg rfl rfl⟩

/-- C2: when the geolocated IP was auto-detected (blank input, discovery
succeeded with dip) and geolocation of dip fails with message e1, the
result is the error record carrying e1 verbatim, and the trace shows no
further discovery or geolocation was attempted. -/
theorem check_for_rain_auto_geo_fail (env : Env) (ip : Option String) (t : Int) (dip e1 : String)
    (hblank : pyStrip (ip.getD "") = "")
    (hd : get_public_ip env.resp = Except.ok dip)
    (hg : geolocate env.geo dip = Except.error e1) :
    runCheck env ip t = (RainCheckResult.error e1, [Event.discover, Event.geoCall dip]) := by
  rw [runCheck_blank_ok env ip t dip hblank hd, geoPhase_err_tried env dip t e1 hg]

theorem check_for_rain_auto_geo_fail_witness :
    pyStrip ((none : Option String).getD "") = "" ∧
    get_public_ip respNine = Except.ok "9.9.9.9" ∧
    geolocate geoFail "9.9.9.9" = Except.error "Could not geolocate IP 9.9.9.9." ∧
    runCheck ⟨respNine, geoFail, WxResp.json [] []⟩ none 20 =
      (RainCheckResult.error "Could not geolocate IP 9.9.9.9.",
        [Event.discover, Event.geoCall "9.9.9.9"]) :=
  ⟨rfl, rfl, rfl, check_for_rain_auto_geo_fail ⟨respNine, geoFail, WxResp.json [] []⟩ none 20
    "9.9.9.9" "Could not geolocate IP 9.9.9.9." rfl rfl rfl⟩

/-- C3: every success result of check_for_rain carries the caller
threshold, and its rain field is the strict comparison
precipitation_chance > threshold; at the boundary, probability equal to
the threshold yields rain = false. -/
theorem check_for_rain_threshold_strict (env : Env) (ip : Option String) (t : Int) (r : SuccessResult)
    (h : (runCheck env ip t).1 = RainCheckResult.success r) :
    r.threshold = t ∧ r.rain = decide (r.precipitation_chance > t) ∧
    (r.precipitation_chance = t → r.rain = false) := by
  obtain ⟨i, la, ln, c, hw⟩ := runCheck_success_origin env ip t r h
  obtain ⟨w, hfp, hip, hloc, hlat, hlng, hrain, hp, ht, hhs⟩ :=
    weatherPhase_success_fields env i la ln c t r hw
  refine ⟨ht, ?_, ?_⟩
  · rw [hrain, hp]
  · intro hpt
    rw [hp] at hpt
    rw [hrain, hpt]
    exact decide_eq_false (lt_irrefl t)

theorem check_for_rain_threshold_strict_witness :
    (runCheck ⟨respNone, geoTestville, WxResp.json [20] []⟩ (some "9.9.9.9") 20).1 =
      RainCheckResult.success
        { ip := "9.9.9.9", location := "Testville", lat := 1, lng := 2, rain := false,
          precipitation_chance := 20, threshold := 20,
          message := "No, 20% chance of rain soon in Testville.", hour_sample := none } ∧
    ({ ip := "9.9.9.9", location := "Testville", lat := 1, lng := 2, rain := false,
        precipitation_chance := 20, threshold := 20,
        message := "No, 20% chance of rain soon in Testville.",
        hour_sample := none } : SuccessResult).rain = false := by
  have h : (runCheck ⟨respNone, geoTestville, WxResp.json [20] []⟩ (some "9.9.9.9") 20).1 =
      RainCheckResult.success
        { ip := "9.9.9.9", location := "Testville", lat := 1, lng := 2, rain := false,
          precipitation_chance := 20, threshold := 20,
          message := "No, 20% chance of rain soon in Testville.", hour_sample := none } := by
    decide
  have hb := (check_for_rain_threshold_strict ⟨respNone, geoTestville, WxResp.json [20] []⟩
    (some "9.9.9.9") 20 _ h).2.2 rfl
  exact ⟨h, hb⟩

/-- C7: every terminal result of check_for_rain is exactly one of the two
mutually exclusive variants, a success record or an error record; the
pipeline is a total function, so no exception escapes to the caller. -/
theorem check_for_rain_exclusive_result (env : Env) (ip : Option String) (t : Int) :
    (∃ r, check_for_rain env ip t = RainCheckResult.success r ∧
        ∀ m, ¬ check_for_rain env ip t = RainCheckResult.error m) ∨
    (∃ m, check_for_rain env ip t = RainCheckResult.error m ∧
        ∀ r, ¬ check_for_rain env ip t = RainCheckResult.success r) := by
  cases h : check_for_rain env ip t with
  | success r => exact Or.inl ⟨r, rfl, fun m hm => by cases hm⟩
  | error m => exact Or.inr ⟨m, rfl, fun r hr => by cases hr⟩

/-- C10: a null ip and a whitespace-only ip are normalized to blank and
handled exactly like the empty string, and auto-detection of the public
IP is attempted (the first external call of the trace is a discovery). -/
theorem check_for_rain_null_or_whitespace (env : Env) (s : String) (t : Int) (hs : pyStrip s = "") :
    runCheck env (some s) t = runCheck env (some "") t ∧
    runCheck env none t = runCheck env (some "") t ∧
    ∃ tail, (runCheck env (some s) t).2 = Event.discover :: tail := by
  have hemp : pyStrip "" = "" := by decide
  have h1 : runCheck env (some s) t = runCheck env (some "") t := by
    simp [runCheck, hs, hemp]
  have h2 : runCheck env none t = runCheck env (some "") t := by
    simp [runCheck]
  refine ⟨h1, h2, ?_⟩
  rw [h1]
  cases hd : get_public_ip env.resp with
  | error e =>
    rw [runCheck_blank_err env (some "") t e hemp hd]
    exact ⟨[], rfl⟩
  | ok dip =>
    rw [runCheck_blank_ok env (some "") t dip hemp hd]
    exact ⟨(geoPhase env dip true t).2, rfl⟩

theorem check_for_rain_null_or_whitespace_witness :
    pyStrip "   " = "" ∧
    (runCheck ⟨respNone, geoFail, WxResp.json [] []⟩ (some "   ") 20 =
        runCheck ⟨respNone, geoFail, WxResp.json [] []⟩ (some "") 20 ∧
      runCheck ⟨respNone, geoFail, WxResp.json [] []⟩ none 20 =
        runCheck ⟨respNone, geoFail, WxResp.json [] []⟩ (some "") 20 ∧
      ∃ tail, (runCheck ⟨respNone, geoFail, WxResp.json [] []⟩ (some "   ") 20).2 =
        Event.discover :: tail) := by
  have hs : pyStrip "   " = "" := by decide
  exact ⟨hs, check_for_rain_null_or_whitespace ⟨respNone, geoFail, WxResp.json [] []⟩ "   " 20 hs⟩

/-- C1: for a non-blank caller-supplied ip whose geolocation fails, the
pipeline performs exactly one fallback discovery followed by one
geolocation of the discovered IP; if both fallback steps succeed the
success result carries the discovered IP, and if either fails the error
message is the first geolocation error, then "; fallback to public IP
failed: ", then the second error. -/
theorem check_for_rain_caller_ip_fallback (env : Env) (s : String) (t : Int) (e1 : String)
    (hs : ¬ pyStrip s = "") (hg : geolocate env.geo (pyStrip s) = Except.error e1) :
    (runCheck env (some s) t).2.count Event.discover = 1 ∧
    (∀ e2, get_public_ip env.resp = Except.error e2 →
      runCheck env (some s) t =
        (RainCheckResult.error (e1 ++ "; fallback to public IP failed: " ++ e2),
          [Event.geoCall (pyStrip s), Event.discover])) ∧
    (∀ aip e2, get_public_ip env.resp = Except.ok aip →
      geolocate env.geo aip = Except.error e2 →
      runCheck env (some s) t =
        (RainCheckResult.error (e1 ++ "; fallback to public IP failed: " ++ e2),
          [Event.geoCall (pyStrip s), Event.discover, Event.geoCall aip])) ∧
    (∀ aip lat lng city, get_public_ip env.resp = Except.ok aip →
      geolocate env.geo aip = Except.ok (lat, lng, city) →
      (runCheck env (some s) t).2 =
        [Event.geoCall (pyStrip s), Event.discover, Event.geoCall aip, Event.weatherCall] ∧
      ∀ r, (runCheck env (some s) t).1 = RainCheckResult.success r → r.ip = aip) := by
  have hrn := runCheck_nonblank env s t hs
  refine ⟨?_, ?_, ?_, ?_⟩
  · rw [hrn]
    cases hd : get_public_ip env.resp with
    | error e2 =>
      rw [geoPhase_fb_disc_err env (pyStrip s) t e1 e2 hg hd]
      rfl
    | ok aip =>
      cases hg2 : geolocate env.geo aip with
      | error e2 =>
        rw [geoPhase_fb_geo_err env (pyStrip s) t e1 aip e2 hg hd hg2]
        rfl
      | ok v =>
        obtain ⟨lat, lng, city⟩ := v
        rw [geoPhase_fb_ok env (pyStrip s) t e1 aip lat lng city hg hd hg2]
        rfl
  · intro e2 hd
    rw [hrn, geoPhase_fb_disc_err env (pyStrip s) t e1 e2 hg hd]
  · intro aip e2 hd hg2
    rw [hrn, geoPhase_fb_geo_err env (pyStrip s) t e1 aip e2 hg hd hg2]
  · intro aip lat lng city hd hg2
    rw [hrn, geoPhase_fb_ok env (pyStrip s) t e1 aip lat lng city hg hd hg2]
    refine ⟨rfl, ?_⟩
    intro r hr
    obtain ⟨w, hfp, hip, _⟩ :=
      weatherPhase_success_fields env aip lat lng city t r hr
    exact hip

theorem check_for_rain_caller_ip_fallback_witness :
    ¬ pyStrip "5.6.7.8" = "" ∧
    geolocate geoTestville "5.6.7.8" = Except.error "Could not geolocate IP 5.6.7.8." ∧
    (runCheck ⟨respNine, geoTestville, WxResp.json [10] []⟩ (some "5.6.7.8") 50).2.count
      Event.discover = 1 := by
  have hs : ¬ pyStrip "5.6.7.8" = "" := by decide
  have hg : geolocate geoTestville "5.6.7.8" = Except.error "Could not geolocate IP 5.6.7.8." := rfl
  exact ⟨hs, hg, (check_for_rain_caller_ip_fallback ⟨respNine, geoTestville, WxResp.json [10] []⟩
    "5.6.7.8" 50 "Could not geolocate IP 5.6.7.8." hs hg).1⟩

/-- C5: once geolocation has succeeded, a transport failure of the
forecast request yields the error record "Failed to fetch weather data:
cause", an empty probability sequence yields the error record carrying
exactly the missing-data message, and on success the reported
probability is the first element of the hourly probability sequence. -/
theorem check_for_rain_weather_classes (env : Env) (s : String) (t : Int)
    (lat lng : Int) (city : String) (hs : ¬ pyStrip s = "")
    (hg : geolocate env.geo (pyStrip s) = Except.ok (lat, lng, city)) :
    (∀ m, env.weather = WxResp.transport m →
      (runCheck env (some s) t).1 =
        RainCheckResult.error ("Failed to fetch weather data: " ++ m)) ∧
    (∀ times, env.weather = WxResp.json [] times →
      (runCheck env (some s) t).1 =
        RainCheckResult.error "Weather data missing precipitation probabilities.") ∧
    (∀ p ps times, env.weather = WxResp.json (p :: ps) times →
      ∃ r, (runCheck env (some s) t).1 = RainCheckResult.success r ∧
        r.precipitation_chance = p) := by
  have hrn := runCheck_nonblank env s t hs
  rw [hrn, geoPhase_ok env (pyStrip s) false t lat lng city hg]
  refine ⟨?_, ?_, ?_⟩
  · intro m hw
    simp [weatherPhase, fetch_precip_prob, hw]
  · intro times hw
    simp [weatherPhase, fetch_precip_prob, hw]
  · intro p ps times hw
    refine ⟨{ ip := pyStrip s, location := city, lat := lat, lng := lng,
              rain := decide (p > t), precipitation_chance := p, threshold := t,
              message := (if p > t then "Yes" else "No") ++ ", " ++ toString p
                ++ "% chance of rain soon in " ++ city ++ ".",
              hour_sample := if (times.take 3).isEmpty then none
                else some (times.take 3) }, ?_, rfl⟩
    simp [weatherPhase, fetch_precip_prob, hw]

theorem check_for_rain_weather_classes_witness :
    ¬ pyStrip "9.9.9.9" = "" ∧
    geolocate geoTestville "9.9.9.9" = Except.ok (1, 2, "Testville") ∧
    (runCheck ⟨respNone, geoTestville, WxResp.transport "boom"⟩ (some "9.9.9.9") 20).1 =
      RainCheckResult.error ("Failed to fetch weather data: " ++ "boom") := by
  have hs : ¬ pyStrip "9.9.9.9" = "" := by decide
  have hg : geolocate geoTestville "9.9.9.9" = Except.ok (1, 2, "Testville") := rfl
  exact ⟨hs, hg, (check_for_rain_weather_classes ⟨respNone, geoTestville, WxResp.transport "boom"⟩
    "9.9.9.9" 20 1 2 "Testville" hs hg).1 "boom" rfl⟩

/-- C6: in a success result built from a forecast body with time
sequence times, the hour-sample key is absent exactly when times is
empty, and when times is non-empty it holds the first at most 3
timestamps of times, in order. -/
theorem check_for_rain_hour_sample (env : Env) (ip : Option String) (t : Int) (r : SuccessResult)
    (probs : List Int) (times : List String)
    (hw : env.weather = WxResp.json probs times)
    (h : (runCheck env ip t).1 = RainCheckResult.success r) :
    (r.hour_sample = none ↔ times = []) ∧
    (¬ times = [] → r.hour_sample = some (times.take 3)) := by
  obtain ⟨i, la, ln, c, hwp⟩ := runCheck_success_origin env ip t r h
  obtain ⟨w, hfp, hip, hloc, hlat, hlng, hrain, hp, ht, hhs⟩ :=
    weatherPhase_success_fields env i la ln c t r hwp
  rw [hw] at hfp
  cases probs with
  | nil => simp [fetch_precip_prob] at hfp
  | cons p ps =>
    simp only [fetch_precip_prob, Except.ok.injEq] at hfp
    rw [← hfp] at hhs
    rw [hhs]
    cases times with
    | nil => simp
    | cons a as => simp [List.take]

theorem check_for_rain_hour_sample_witness :
    (⟨respNone, geoTestville, WxResp.json [45] ["t1", "t2", "t3", "t4"]⟩ : Env).weather =
      WxResp.json [45] ["t1", "t2", "t3", "t4"] ∧
    (runCheck ⟨respNone, geoTestville, WxResp.json [45] ["t1", "t2", "t3", "t4"]⟩
        (some "9.9.9.9") 20).1 =
      RainCheckResult.success
        { ip := "9.9.9.9", location := "Testville", lat := 1, lng := 2, rain := true,
          precipitation_chance := 45, threshold := 20,
          message := "Yes, 45% chance of rain soon in Testville.",
          hour_sample := some ["t1", "t2", "t3"] } ∧
    (some ["t1", "t2", "t3"] : Option (List String)) =
      some (["t1", "t2", "t3", "t4"].take 3) := by
  have h : (runCheck ⟨respNone, geoTestville, WxResp.json [45] ["t1", "t2", "t3", "t4"]⟩
      (some "9.9.9.9") 20).1 =
      RainCheckResult.success
        { ip := "9.9.9.9", location := "Testville", lat := 1, lng := 2, rain := true,
          precipitation_chance := 45, threshold := 20,
          message := "Yes, 45% chance of rain soon in Testville.",
          hour_sample := some ["t1", "t2", "t3"] } := by decide
  have hc := (check_for_rain_hour_sample ⟨respNone, geoTestville, WxResp.json [45] ["t1", "t2", "t3", "t4"]⟩
    (some "9.9.9.9") 20 _ [45] ["t1", "t2", "t3", "t4"] rfl h).2 (by decide)
  exact ⟨rfl, h, by rw [← hc]⟩

theorem tryEndpointsT_all_miss (resp : String → Option String) (l : List String)
    (h : ∀ url ∈ l, endpointMiss resp url = true) :
    tryEndpointsT resp l = (Except.error discoveryErrMsg, l) := by
  induction l with
  | nil => rfl
  | cons url rest ih =>
    have hu := h url (List.mem_cons_self url rest)
    have hr := ih (fun u hu2 => h u (List.mem_cons_of_mem url hu2))
    cases hresp : resp url with
    | none =>
      simp [tryEndpointsT, hresp, hr]
    | some body =>
      have hb : pyStrip body = "" := by
        simpa [endpointMiss, hresp] using hu
      simp [tryEndpointsT, hresp, hb, hr]

theorem tryEndpointsT_trace_take (resp : String → Option String) (l : List String) :
    ∃ n, (tryEndpointsT resp l).2 = l.take n := by
  induction l with
  | nil => exact ⟨0, rfl⟩
  | cons url rest ih =>
    obtain ⟨n, hn⟩ := ih
    cases hresp : resp url with
    | none =>
      refine ⟨n + 1, ?_⟩
      simp [tryEndpointsT, hresp, hn]
    | some body =>
      by_cases hb : pyStrip body = ""
      · refine ⟨n + 1, ?_⟩
        simp [tryEndpointsT, hresp, hb, hn]
      · refine ⟨1, ?_⟩
        simp [tryEndpointsT, hresp, hb]

theorem tryEndpointsT_first_hit (resp : String → Option String) (b : String)
    (l1 : List String) (url : String) (l2 : List String)
    (h1 : ∀ u ∈ l1, endpointMiss resp u = true)
    (hu : resp url = some b) (hb : ¬ pyStrip b = "") :
    tryEndpointsT resp (l1 ++ url :: l2) = (Except.ok (pyStrip b), l1 ++ [url]) := by
  induction l1 with
  | nil =>
    simp [tryEndpointsT, hu, hb]
  | cons v vs ih =>
    have hv := h1 v (List.mem_cons_self v vs)
    have ih2 := ih (fun u hu2 => h1 u (List.mem_cons_of_mem v hu2))
    cases hresp : resp v with
    | none =>
      simp [tryEndpointsT, hresp, ih2]
    | some body =>
      have hbv : pyStrip body = "" := by
        simpa [endpointMiss, hresp] using hv
      simp [tryEndpointsT, hresp, hbv, ih2]

/-- C8: get_public_ip tries the fixed ordered list of exactly three
endpoints: the URLs queried are always a duplicate-free in-order
sequence of the endpoint list (no retries within an endpoint and no
reordering); if every endpoint raises or answers blank the result is the
discovery error after querying all three; and if some endpoint answers a
non-blank body while all earlier ones miss, the result is that body,
trimmed, with the later endpoints never queried. -/
theorem get_public_ip_spec (resp : String → Option String) :
    endpoints.length = 3 ∧
    (∃ n, (tryEndpointsT resp endpoints).2 = endpoints.take n) ∧
    ((∀ url ∈ endpoints, endpointMiss resp url = true) →
      get_public_ip resp = Except.error discoveryErrMsg ∧
      (tryEndpointsT resp endpoints).2 = endpoints) ∧
    (∀ l1 url l2 b, endpoints = l1 ++ url :: l2 →
      (∀ u ∈ l1, endpointMiss resp u = true) →
      resp url = some b → ¬ pyStrip b = "" →
      get_public_ip resp = Except.ok (pyStrip b) ∧
      (tryEndpointsT resp endpoints).2 = l1 ++ [url]) := by
  refine ⟨rfl, tryEndpointsT_trace_take resp endpoints, ?_, ?_⟩
  · intro hmiss
    have h3 := tryEndpointsT_all_miss resp endpoints hmiss
    exact ⟨congrArg Prod.fst h3, congrArg Prod.snd h3⟩
  · intro l1 url l2 b heq h1 hu hb
    have h4 : tryEndpointsT resp endpoints = (Except.ok (pyStrip b), l1 ++ [url]) := by
      rw [heq]
      exact tryEndpointsT_first_hit resp b l1 url l2 h1 hu hb
    exact ⟨congrArg Prod.fst h4, congrArg Prod.snd h4⟩

theorem get_public_ip_spec_witness :
    (∀ url ∈ endpoints, endpointMiss respNone url = true) ∧
    get_public_ip respNone = Except.error discoveryErrMsg ∧
    (tryEndpointsT respNone endpoints).2 = endpoints :=
  ⟨by decide, ((get_public_ip_spec respNone).2.2.1 (by decide)).1,
    ((get_public_ip_spec respNone).2.2.1 (by decide)).2⟩

/-- C9: geolocate succeeds exactly when the provider reports an ok
status and a present latitude/longitude pair; whenever either condition
fails it returns the error naming the offending IP; and on success with
an omitted city the returned city is the placeholder "your area". -/
theorem geolocate_spec (geo : String → GeoResp) (ip : String) :
    ((∃ v, geolocate geo ip = Except.ok v) ↔
      ((geo ip).ok = true ∧ ¬ (geo ip).latlng = none)) ∧
    (¬ ((geo ip).ok = true ∧ ¬ (geo ip).latlng = none) →
      geolocate geo ip = Except.error ("Could not geolocate IP " ++ ip ++ ".")) ∧
    (∀ lat lng, (geo ip).ok = true → (geo ip).latlng = some (lat, lng) →
      (geo ip).city = none → geolocate geo ip = Except.ok (lat, lng, "your area")) := by
  cases hll : (geo ip).latlng with
  | none =>
    refine ⟨?_, ?_, ?_⟩
    · simp [geolocate, hll]
    · intro hcon
      simp [geolocate, hll]
    · intro lat lng hok hsome hcity
      cases hsome
  | some p =>
    cases hok : (geo ip).ok with
    | false =>
      refine ⟨?_, ?_, ?_⟩
      · simp [geolocate, hll, hok]
      · intro hcon
        simp [geolocate, hll, hok]
      · intro lat lng hok2 hsome hcity
        cases hok2
    | true =>
      refine ⟨?_, ?_, ?_⟩
      · simp [geolocate, hll, hok]
      · intro hcon
        exact absurd ⟨rfl, by simp⟩ hcon
      · intro lat lng hok2 hsome hcity
        injection hsome with hp
        subst hp
        simp [geolocate, hll, hok, hcity, cityOrDefault]

theorem geolocate_spec_witness :
    ¬ ((geoFail "1.2.3.4").ok = true ∧ ¬ (geoFail "1.2.3.4").latlng = none) ∧
    geolocate geoFail "1.2.3.4" = Except.error "Could not geolocate IP 1.2.3.4." ∧
    (geoNoCity "8.8.8.8").city = none ∧
    geolocate geoNoCity "8.8.8.8" = Except.ok (3, 4, "your area") :=
  ⟨by decide, (geolocate_spec geoFail "1.2.3.4").2.1 (by decide), rfl,
    (geolocate_spec geoNoCity "8.8.8.8").2.2 3 4 rfl rfl rfl⟩
